import Mathlib

/-!
Verification of the authentication core of the fastapi-boilarplate repository.

The repository's refresh-token store, OTP engine, session manager and cache
helpers are shallowly embedded as Lean functions.  Pure persistence code is
translated from `src/app/repositories/auth_repository.py`,
`src/app/core/cache.py`, `src/app/core/exceptions.py` and the endpoint modules
`src/app/api/v1/endpoints/auth.py` and `src/app/modules/auth/endpoints.py`.
The service layer (`AuthService`, `OTPService`, `app/core/security.py`) is not
part of the source tree; definitions standing in for it are modelled from the
specification and say so in their doc comments.  Timestamps are seconds as
naturals; raw refresh tokens are naturals and the token hash is idealised as
the identity (an injective hash).
-/

namespace FastapiAuth

/-- A row of the refresh-token table (`RefreshToken` model): id, owning user,
token hash, family id, revoked flag and expiry timestamp. -/
structure RefreshToken where
  id : Nat
  userId : Nat
  tokenHash : Nat
  familyId : Nat
  revoked : Bool
  expiresAt : Nat
deriving Repr, DecidableEq

/-- The refresh-token table, plus a counter supplying fresh row ids, raw token
values and family ids. -/
structure TokenStore where
  tokens : List RefreshToken
  nextId : Nat
deriving Repr, DecidableEq

def TokenStore.empty : TokenStore := ⟨[], 0⟩

/-- `RefreshTokenRepository.get_by_token_hash`
(src/app/repositories/auth_repository.py lines 22-24): the row whose
`token_hash` equals the argument. -/
def get_by_token_hash (s : TokenStore) (h : Nat) : Option RefreshToken :=
  s.tokens.find? (fun t => t.tokenHash == h)

/-- `RefreshTokenRepository.get_by_user_id` (auth_repository.py lines 26-34):
all unrevoked rows of the user whose `expires_at` is in the future. -/
def get_by_user_id (s : TokenStore) (uid now : Nat) : List RefreshToken :=
  s.tokens.filter (fun t => t.userId == uid && t.revoked == false && decide (now < t.expiresAt))

/-- `RefreshTokenRepository.revoke_token` (auth_repository.py lines 36-43):
set the revoked flag on the row with the given id. -/
def revoke_token (s : TokenStore) (tid : Nat) : TokenStore :=
  { s with tokens := s.tokens.map (fun t => if t.id == tid then { t with revoked := true } else t) }

/-- `RefreshTokenRepository.revoke_family` (auth_repository.py lines 45-58):
set the revoked flag on every row of the family. -/
def revoke_family (s : TokenStore) (fam : Nat) : TokenStore :=
  { s with tokens := s.tokens.map (fun t => if t.familyId == fam then { t with revoked := true } else t) }

/-- 7 days, the refresh-token lifetime of the spec and of the login endpoints'
cookie max-age. -/
def REFRESH_TOKEN_EXPIRE_SECONDS : Nat := 7 * 24 * 60 * 60

/-- Modelled from the spec: `issue(user_id)` of the Refresh Token Store
(spec 4.4); `AuthService.create_tokens` is not under src/.  Creates a new
family and persists a fresh high-entropy token with a 7-day expiry, returning
the raw token. -/
def issue (s : TokenStore) (uid now : Nat) : Nat × TokenStore :=
  (s.nextId,
   { tokens := s.tokens ++
       [⟨s.nextId, uid, s.nextId, s.nextId, false, now + REFRESH_TOKEN_EXPIRE_SECONDS⟩],
     nextId := s.nextId + 1 })

/-- Internal rotation failures of the Refresh Token Store (spec 4.4). -/
inductive RotateErr where
  | notFound
  | reuseDetected
  | expired
deriving Repr, DecidableEq

/-- Modelled from the spec: `rotate(raw_token)` of the Refresh Token Store
(spec 4.4); `AuthService.refresh_access_token` is not under src/.  The
repository operations it invokes (`get_by_token_hash`, `revoke_token`,
`revoke_family`) are the ones embedded from auth_repository.py.  Looks the
presented token up by hash; not found fails, a revoked hit revokes the whole
family (reuse detection), an expired hit fails, and a valid hit is revoked and
replaced by a fresh token in the same family. -/
def rotate (s : TokenStore) (raw now : Nat) : Except RotateErr (Nat × Nat) × TokenStore :=
  match get_by_token_hash s raw with
  | none => (.error .notFound, s)
  | some t =>
    if t.revoked then
      (.error .reuseDetected, revoke_family s t.familyId)
    else if t.expiresAt ≤ now then
      (.error .expired, s)
    else
      (.ok (s.nextId, t.userId),
       { tokens := (revoke_token s t.id).tokens ++
           [⟨s.nextId, t.userId, s.nextId, t.familyId, false, now + REFRESH_TOKEN_EXPIRE_SECONDS⟩],
         nextId := s.nextId + 1 })

/-- The one public failure of the refresh flow. -/
inductive AuthErr where
  | invalidRefreshToken
deriving Repr, DecidableEq

/-- Modelled from the spec: session-manager `refresh` (spec 4.5) delegates to
`rotate` and surfaces every rotation failure, `TokenReuseDetected` included,
as the generic `InvalidRefreshToken`. -/
def refresh (s : TokenStore) (raw now : Nat) : Except AuthErr (Nat × Nat) × TokenStore :=
  match rotate s raw now with
  | (.error _, s') => (.error .invalidRefreshToken, s')
  | (.ok v, s') => (.ok v, s')

/-- Modelled from the spec: `revoke_all_for_user` (spec 4.4), used at logout. -/
def revoke_all_for_user (s : TokenStore) (uid : Nat) : TokenStore :=
  { s with tokens := s.tokens.map (fun t => if t.userId == uid then { t with revoked := true } else t) }

/-- C1: rotating a token whose stored record is revoked fails with the public
`InvalidRefreshToken` (the internal reuse-detected failure is not surfaced)
and first revokes every record of the token's family; in particular, after
`issue` yields T1 and a first rotate yields child T2, a second rotate of T1
fails with `InvalidRefreshToken` and leaves T2 revoked. -/
theorem c1_reuse_revokes_family :
    (∀ (s : TokenStore) (raw now : Nat) (t : RefreshToken),
      get_by_token_hash s raw = some t → t.revoked = true →
        (refresh s raw now).1 = .error .invalidRefreshToken ∧
        ∀ u ∈ (refresh s raw now).2.tokens, u.familyId = t.familyId → u.revoked = true) ∧
    (∀ (uid now : Nat),
      (rotate (issue TokenStore.empty uid now).2 (issue TokenStore.empty uid now).1 now).1 =
        .ok (1, uid) ∧
      (refresh (rotate (issue TokenStore.empty uid now).2
          (issue TokenStore.empty uid now).1 now).2
          (issue TokenStore.empty uid now).1 now).1 = .error .invalidRefreshToken ∧
      ∀ u ∈ (refresh (rotate (issue TokenStore.empty uid now).2
          (issue TokenStore.empty uid now).1 now).2
          (issue TokenStore.empty uid now).1 now).2.tokens,
        u.tokenHash = 1 → u.revoked = true) := by
  constructor
  · intro s raw now t hfind hrev
    have hrot : rotate s raw now =
        (.error .reuseDetected, revoke_family s t.familyId) := by
      unfold rotate
      rw [hfind]
      simp [hrev]
    constructor
    · unfold refresh
      rw [hrot]
    · intro u hu hfam
      unfold refresh at hu
      rw [hrot] at hu
      simp only [revoke_family, List.mem_map] at hu
      obtain ⟨v, _, hvu⟩ := hu
      by_cases hv : v.familyId = t.familyId
      · simp [hv] at hvu
        rw [← hvu]
      · simp [hv] at hvu
        rw [← hvu] at hfam
        exact absurd hfam hv
  · intro uid now
    have hexp : ¬ (now + REFRESH_TOKEN_EXPIRE_SECONDS ≤ now) := by
      unfold REFRESH_TOKEN_EXPIRE_SECONDS; omega
    constructor
    · simp [issue, rotate, get_by_token_hash, TokenStore.empty, List.find?, hexp,
        revoke_token]
    constructor
    · simp [issue, rotate, get_by_token_hash, TokenStore.empty, List.find?, hexp,
        revoke_token, refresh, revoke_family]
    · intro u hu hhash
      simp [issue, rotate, get_by_token_hash, TokenStore.empty, List.find?, hexp,
        revoke_token, refresh, revoke_family] at hu
      rcases hu with h | h <;> simp [h] at hhash ⊢

/-- The unrevoked rows of a family (expiry ignored). -/
def activeInFamily (s : TokenStore) (fam : Nat) : List RefreshToken :=
  s.tokens.filter (fun t => t.familyId == fam && t.revoked == false)

/-- One step of the refresh-token store: any of the five operations, at an
arbitrary time. -/
inductive Step : TokenStore → TokenStore → Prop where
  | issue (s : TokenStore) (uid now : Nat) : Step s (issue s uid now).2
  | rotate (s : TokenStore) (raw now : Nat) : Step s (rotate s raw now).2
  | revokeToken (s : TokenStore) (tid : Nat) : Step s (revoke_token s tid)
  | revokeFamily (s : TokenStore) (fam : Nat) : Step s (revoke_family s fam)
  | revokeAll (s : TokenStore) (uid : Nat) : Step s (revoke_all_for_user s uid)

/-- States of the store reachable from the empty table by any sequence of
operations. -/
inductive Reachable : TokenStore → Prop where
  | init : Reachable TokenStore.empty
  | step {s s' : TokenStore} : Reachable s → Step s s' → Reachable s'

/-- Every stored hash and family id is below the freshness counter. -/
def Bounded (s : TokenStore) : Prop :=
  ∀ t ∈ s.tokens, t.tokenHash < s.nextId ∧ t.familyId < s.nextId

/-- The store invariant: freshness bounds plus at most one unrevoked row per
family. -/
def Inv (s : TokenStore) : Prop :=
  Bounded s ∧ ∀ fam, (activeInFamily s fam).length ≤ 1

theorem length_filter_le_of_imp {α : Type} (p q : α → Bool)
    (h : ∀ a, p a = true → q a = true) :
    ∀ l : List α, (l.filter p).length ≤ (l.filter q).length := by
  intro l
  induction l with
  | nil => simp
  | cons a l ih =>
    simp only [List.filter_cons]
    by_cases hp : p a = true
    · rw [hp, h a hp]
      simpa using ih
    · simp only [Bool.not_eq_true] at hp
      rw [hp]
      by_cases hq : q a = true
      · rw [hq]
        simp
        omega
      · simp only [Bool.not_eq_true] at hq
        rw [hq]
        simpa using ih

theorem eq_of_mem_of_length_le_one {α : Type} {l : List α} (h : l.length ≤ 1)
    {a b : α} (ha : a ∈ l) (hb : b ∈ l) : a = b := by
  match l with
  | [] => exact absurd ha (List.not_mem_nil a)
  | [x] =>
    simp only [List.mem_singleton] at ha hb
    rw [ha, hb]
  | x :: y :: l => simp at h

theorem length_filter_map_revoke_le (fam : Nat) (g : RefreshToken → RefreshToken)
    (hg : ∀ t, g t = t ∨ g t = { t with revoked := true }) :
    ∀ l : List RefreshToken,
      (List.filter (fun t => t.familyId == fam && t.revoked == false) (l.map g)).length ≤
      (List.filter (fun t => t.familyId == fam && t.revoked == false) l).length := by
  intro l
  induction l with
  | nil => simp
  | cons a l ih =>
    simp only [List.map_cons, List.filter_cons]
    rcases hg a with h | h
    · rw [h]
      by_cases hp : (a.familyId == fam && a.revoked == false) = true
      · rw [hp]
        simpa using ih
      · simp only [Bool.not_eq_true] at hp
        rw [hp]
        simpa using ih
    · rw [h]
      have hfalse : (({ a with revoked := true } : RefreshToken).familyId == fam &&
          ({ a with revoked := true } : RefreshToken).revoked == false) = false := by
        simp
      rw [hfalse]
      by_cases hp : (a.familyId == fam && a.revoked == false) = true
      · rw [hp]
        simp only [if_true]
        calc (List.filter _ (l.map g)).length ≤ _ := ih
          _ ≤ _ := by simp
      · simp only [Bool.not_eq_true] at hp
        rw [hp]
        simpa using ih

theorem inv_map_revoke {s : TokenStore} (g : RefreshToken → RefreshToken)
    (hg : ∀ t, g t = t ∨ g t = { t with revoked := true })
    (h : Inv s) : Inv { s with tokens := s.tokens.map g } := by
  obtain ⟨hb, hone⟩ := h
  constructor
  · intro t ht
    simp only [List.mem_map] at ht
    obtain ⟨u, hu, hgu⟩ := ht
    rcases hg u with h1 | h1 <;> rw [h1] at hgu <;> rw [← hgu] <;> exact hb u hu
  · intro fam
    calc (activeInFamily { s with tokens := s.tokens.map g } fam).length
        ≤ (activeInFamily s fam).length := length_filter_map_revoke_le fam g hg s.tokens
      _ ≤ 1 := hone fam

theorem inv_issue {s : TokenStore} (h : Inv s) (uid now : Nat) :
    Inv (issue s uid now).2 := by
  obtain ⟨hb, hone⟩ := h
  constructor
  · intro t ht
    simp only [issue, List.mem_append, List.mem_singleton] at ht
    rcases ht with ht | ht
    · have := hb t ht
      simp only [issue]
      omega
    · rw [ht]
      simp only [issue]
      omega
  · intro fam
    simp only [issue, activeInFamily, List.filter_append]
    rw [List.length_append]
    by_cases hf : fam = s.nextId
    · have hempty : (s.tokens.filter (fun t => t.familyId == fam && t.revoked == false)) = [] := by
        rw [List.filter_eq_nil_iff]
        intro t ht
        have := (hb t ht).2
        simp only [Bool.and_eq_true, beq_iff_eq, Bool.not_eq_true]
        intro hcon
        omega
      rw [hempty]
      subst hf
      simp
    · have hempty : (List.filter (fun t => t.familyId == fam && t.revoked == false)
          [(⟨s.nextId, uid, s.nextId, s.nextId, false,
            now + REFRESH_TOKEN_EXPIRE_SECONDS⟩ : RefreshToken)]) = [] := by
        rw [List.filter_eq_nil_iff]
        intro t ht
        simp only [List.mem_singleton] at ht
        rw [ht]
        simp only [Bool.and_eq_true, beq_iff_eq]
        intro hcon
        exact hf hcon.1.symm
      rw [hempty]
      simpa [activeInFamily] using hone fam

theorem inv_rotate {s : TokenStore} (h : Inv s) (raw now : Nat) :
    Inv (rotate s raw now).2 := by
  obtain ⟨hb, hone⟩ := h
  unfold rotate
  cases hfind : get_by_token_hash s raw with
  | none => exact ⟨hb, hone⟩
  | some t =>
    have htmem : t ∈ s.tokens := by
      unfold get_by_token_hash at hfind
      exact List.mem_of_find?_eq_some hfind
    by_cases hrev : t.revoked
    · simp only [hrev, if_true]
      exact inv_map_revoke _ (by
        intro u
        by_cases hu : (u.familyId == t.familyId) = true
        · right; rw [if_pos hu]
        · left; rw [if_neg hu]) ⟨hb, hone⟩
    · by_cases hexp : t.expiresAt ≤ now
      · simp only [hrev, if_false, if_pos hexp, Bool.false_eq_true]
        exact ⟨hb, hone⟩
      · simp only [hrev, if_false, if_neg hexp, Bool.false_eq_true]
        constructor
        · intro u hu
          simp only [revoke_token, List.mem_append, List.mem_map,
            List.mem_singleton] at hu
          rcases hu with ⟨v, hv, hgv⟩ | hu
          · have hbv := hb v hv
            by_cases hvid : (v.id == t.id) = true
            · rw [if_pos hvid] at hgv
              rw [← hgv]
              dsimp only
              omega
            · rw [if_neg hvid] at hgv
              rw [← hgv]
              dsimp only
              omega
          · rw [hu]
            have := (hb t htmem).2
            dsimp only
            omega
        · intro fam
          simp only [activeInFamily, revoke_token, List.filter_append]
          rw [List.length_append]
          by_cases hf : fam = t.familyId
          · have hmapnil : (List.filter (fun u => u.familyId == fam && u.revoked == false)
                (s.tokens.map (fun u => if u.id == t.id then { u with revoked := true } else u))) = [] := by
              rw [List.filter_eq_nil_iff]
              intro u' hu'
              simp only [List.mem_map] at hu'
              obtain ⟨u, hu, hgu⟩ := hu'
              by_cases huid : (u.id == t.id) = true
              · rw [if_pos huid] at hgu
                rw [← hgu]
                simp
              · rw [if_neg huid] at hgu
                rw [← hgu]
                simp only [Bool.and_eq_true, beq_iff_eq, Bool.not_eq_true]
                intro hcon
                have hut : u ∈ activeInFamily s fam := by
                  simp only [activeInFamily, List.mem_filter, Bool.and_eq_true, beq_iff_eq]
                  exact ⟨hu, hcon.1, hcon.2⟩
                have htt : t ∈ activeInFamily s fam := by
                  simp only [activeInFamily, List.mem_filter, Bool.and_eq_true, beq_iff_eq]
                  refine ⟨htmem, hf.symm, ?_⟩
                  simp only [Bool.not_eq_true] at hrev
                  rw [hrev]
                have := eq_of_mem_of_length_le_one (hone fam) hut htt
                rw [this] at huid
                simp at huid
            rw [hmapnil]
            subst hf
            simp
          · have hnewnil : (List.filter (fun u => u.familyId == fam && u.revoked == false)
                [(⟨s.nextId, t.userId, s.nextId, t.familyId, false,
                  now + REFRESH_TOKEN_EXPIRE_SECONDS⟩ : RefreshToken)]) = [] := by
              rw [List.filter_eq_nil_iff]
              intro u hu
              simp only [List.mem_singleton] at hu
              rw [hu]
              simp only [Bool.and_eq_true, beq_iff_eq]
              intro hcon
              exact hf hcon.1.symm
            rw [hnewnil]
            have : (List.filter (fun u => u.familyId == fam && u.revoked == false)
                (s.tokens.map (fun u => if u.id == t.id then { u with revoked := true } else u))).length ≤
                (activeInFamily s fam).length := by
              apply length_filter_map_revoke_le
              intro u
              by_cases huid : (u.id == t.id) = true
              · right; rw [if_pos huid]
              · left; rw [if_neg huid]
            have h1 := hone fam
            simp only [activeInFamily] at this h1
            simpa using le_trans this h1

theorem inv_of_reachable {s : TokenStore} (h : Reachable s) : Inv s := by
  induction h with
  | init =>
    constructor
    · intro t ht
      simp [TokenStore.empty] at ht
    · intro fam
      simp [activeInFamily, TokenStore.empty]
  | step _ hstep ih =>
    cases hstep with
    | issue uid now => exact inv_issue ih uid now
    | rotate raw now => exact inv_rotate ih raw now
    | revokeToken tid =>
      exact inv_map_revoke _ (by
        intro t
        by_cases ht : (t.id == tid) = true
        · right; rw [if_pos ht]
        · left; rw [if_neg ht]) ih
    | revokeFamily fam =>
      exact inv_map_revoke _ (by
        intro t
        by_cases ht : (t.familyId == fam) = true
        · right; rw [if_pos ht]
        · left; rw [if_neg ht]) ih
    | revokeAll uid =>
      exact inv_map_revoke _ (by
        intro t
        by_cases ht : (t.userId == uid) = true
        · right; rw [if_pos ht]
        · left; rw [if_neg ht]) ih

/-- C2: in every state reachable by any sequence of issue, rotate,
revoke_token, revoke_family and revoke_all_for_user operations, each family
has at most one row that is both unrevoked and unexpired; and a successful
rotate revokes the presented row and inserts its replacement with the same
family id. -/
theorem c2_single_active_per_family :
    (∀ s : TokenStore, Reachable s → ∀ fam now : Nat,
      (s.tokens.filter (fun t => t.familyId == fam && t.revoked == false &&
        decide (now < t.expiresAt))).length ≤ 1) ∧
    (∀ (s : TokenStore) (raw now : Nat) (v : Nat × Nat) (s' : TokenStore) (t : RefreshToken),
      rotate s raw now = (.ok v, s') → get_by_token_hash s raw = some t →
        { t with revoked := true } ∈ s'.tokens ∧
        (⟨s.nextId, t.userId, s.nextId, t.familyId, false,
          now + REFRESH_TOKEN_EXPIRE_SECONDS⟩ : RefreshToken) ∈ s'.tokens) := by
  constructor
  · intro s hreach fam now
    have hinv := (inv_of_reachable hreach).2 fam
    simp only [activeInFamily] at hinv
    calc (s.tokens.filter (fun t => t.familyId == fam && t.revoked == false &&
          decide (now < t.expiresAt))).length
        ≤ (s.tokens.filter (fun t => t.familyId == fam && t.revoked == false)).length := by
          apply length_filter_le_of_imp
          intro t ht
          simp only [Bool.and_eq_true] at ht ⊢
          exact ht.1
      _ ≤ 1 := hinv
  · intro s raw now v s' t heq hfind
    have htmem : t ∈ s.tokens := by
      unfold get_by_token_hash at hfind
      exact List.mem_of_find?_eq_some hfind
    unfold rotate at heq
    rw [hfind] at heq
    dsimp only at heq
    by_cases hrev : t.revoked
    · rw [if_pos hrev] at heq
      simp at heq
    · rw [if_neg hrev] at heq
      by_cases hexp : t.expiresAt ≤ now
      · rw [if_pos hexp] at heq
        simp at heq
      · rw [if_neg hexp] at heq
        rw [Prod.mk.injEq] at heq
        obtain ⟨hv, hs2⟩ := heq
        rw [← hs2]
        constructor
        · simp only [revoke_token, List.mem_append, List.mem_map]
          left
          exact ⟨t, htmem, by rw [if_pos (by simp)]⟩
        · simp only [List.mem_append, List.mem_singleton]
          right
          trivial

/-- Witness for C2: the invariant at the initial state, and a concrete
successful rotation of the single token of a one-row store. -/
theorem c2_single_active_per_family_witness :
    (TokenStore.empty.tokens.filter (fun t => t.familyId == 0 && t.revoked == false &&
      decide (0 < t.expiresAt))).length ≤ 1 ∧
    ((⟨0, 7, 0, 0, true, 2000⟩ : RefreshToken) ∈
      (rotate ⟨[⟨0, 7, 0, 0, false, 2000⟩], 1⟩ 0 100).2.tokens ∧
     (⟨1, 7, 1, 0, false, 100 + REFRESH_TOKEN_EXPIRE_SECONDS⟩ : RefreshToken) ∈
      (rotate ⟨[⟨0, 7, 0, 0, false, 2000⟩], 1⟩ 0 100).2.tokens) := by
  constructor
  · exact c2_single_active_per_family.1 TokenStore.empty Reachable.init 0 0
  · exact c2_single_active_per_family.2 ⟨[⟨0, 7, 0, 0, false, 2000⟩], 1⟩ 0 100
      (1, 7) (rotate ⟨[⟨0, 7, 0, 0, false, 2000⟩], 1⟩ 0 100).2 ⟨0, 7, 0, 0, false, 2000⟩
      (by rfl) (by rfl)

/-- Witness for C1 at concrete inputs: a store holding a revoked token of
family 5 together with an unrevoked sibling, and the issue-rotate-rotate
scenario at user 7, time 1000. -/
theorem c1_reuse_revokes_family_witness :
    ((refresh ⟨[⟨0, 7, 3, 5, true, 2000⟩, ⟨1, 7, 4, 5, false, 2000⟩], 2⟩ 3 100).1 =
        .error .invalidRefreshToken ∧
      ∀ u ∈ (refresh ⟨[⟨0, 7, 3, 5, true, 2000⟩, ⟨1, 7, 4, 5, false, 2000⟩], 2⟩ 3 100).2.tokens,
        u.familyId = 5 → u.revoked = true) ∧
    (rotate (issue TokenStore.empty 7 1000).2 (issue TokenStore.empty 7 1000).1 1000).1 =
      .ok (1, 7) := by
  constructor
  · exact c1_reuse_revokes_family.1 ⟨[⟨0, 7, 3, 5, true, 2000⟩, ⟨1, 7, 4, 5, false, 2000⟩], 2⟩
      3 100 ⟨0, 7, 3, 5, true, 2000⟩ (by decide) (by decide)
  · exact (c1_reuse_revokes_family.2 7 1000).1

/-! ## Logout and the access-token blacklist (C3) -/

/-- `settings.ACCESS_TOKEN_EXPIRE_MINUTES`: the fixed 15-minute access-token
lifetime of the spec; the settings module carrying it is not under src/. -/
def ACCESS_TOKEN_EXPIRE_MINUTES : Nat := 15

/-- An access token as seen by the logout endpoint: its raw wire string and
the expiry timestamp of its signed claims. -/
structure AccessToken where
  raw : String
  expiresAt : Nat
deriving Repr, DecidableEq

/-- A cache write: key, stored value and TTL in seconds. -/
structure CacheEntry where
  key : String
  value : String
  expire : Nat
deriving Repr, DecidableEq

/-- The observable outcome of the logout endpoint. -/
structure LogoutResult where
  store : TokenStore
  blacklist : Option CacheEntry
  permCacheInvalidated : Bool
deriving Repr, DecidableEq

/-- The logout endpoint, embedded from src/app/api/v1/endpoints/auth.py lines
284-324 (duplicated at src/app/modules/auth/endpoints.py lines 326-366): it
revokes the user's refresh tokens and, when an access token is supplied,
writes the blacklist entry with key `"blacklist:token:" ++ sha256(token)`
(the SHA-256 hex digest is a parameter of the model), value "1" and
`expire = settings.ACCESS_TOKEN_EXPIRE_MINUTES * 60`.  The refresh-token
revocation and the permission-cache invalidation inside `AuthService.logout`
are modelled from the spec (4.5), that service being absent from src/. -/
def logout (sha256Hex : String → String) (s : TokenStore) (uid : Nat)
    (tok : Option AccessToken) : LogoutResult :=
  { store := revoke_all_for_user s uid,
    blacklist := tok.map (fun t =>
      ⟨"blacklist:token:" ++ sha256Hex t.raw, "1", ACCESS_TOKEN_EXPIRE_MINUTES * 60⟩),
    permCacheInvalidated := true }

/-- C3 counterexample: at time 1000, logging out with an access token that
expires at 1100 (remaining lifetime 100 s) writes a blacklist entry with the
fixed TTL of 900 s, not the remaining lifetime, so the claim as stated is
false on the code. -/
theorem c3_counterexample :
    (logout (fun x => x) TokenStore.empty 1 (some ⟨"tok", 1100⟩)).blacklist.map
        CacheEntry.expire = some 900 ∧
    (1100 : Nat) - 1000 = 100 ∧ (900 : Nat) ≠ 100 := by
  refine ⟨rfl, rfl, by decide⟩

/-- C3 amended: for every logout call supplying an access token, the endpoint
revokes all of the user's refresh tokens, invalidates the user's
permission-cache entry, and writes a blacklist entry keyed by the SHA-256
hash of the access token whose TTL is the fixed full access-token lifetime
`ACCESS_TOKEN_EXPIRE_MINUTES * 60 = 900` seconds, regardless of the token's
remaining lifetime. -/
theorem c3_logout_fixed_ttl (sha256Hex : String → String) (s : TokenStore)
    (uid : Nat) (tok : AccessToken) :
    (∀ u ∈ (logout sha256Hex s uid (some tok)).store.tokens,
      u.userId = uid → u.revoked = true) ∧
    (logout sha256Hex s uid (some tok)).blacklist =
      some ⟨"blacklist:token:" ++ sha256Hex tok.raw, "1", 900⟩ ∧
    (logout sha256Hex s uid (some tok)).permCacheInvalidated = true := by
  refine ⟨?_, rfl, rfl⟩
  intro u hu huid
  simp only [logout, revoke_all_for_user, List.mem_map] at hu
  obtain ⟨v, _, hvu⟩ := hu
  by_cases hv : (v.userId == uid) = true
  · rw [if_pos hv] at hvu
    rw [← hvu]
  · rw [if_neg hv] at hvu
    rw [← hvu] at huid
    simp only [beq_iff_eq] at hv
    exact absurd huid hv

/-- Witness for C3 amended at a concrete store and token. -/
theorem c3_logout_fixed_ttl_witness :
    (∀ u ∈ (logout (fun x => x) ⟨[⟨0, 4, 0, 0, false, 2000⟩], 1⟩ 4
        (some ⟨"tk", 1100⟩)).store.tokens, u.userId = 4 → u.revoked = true) ∧
    (logout (fun x => x) ⟨[⟨0, 4, 0, 0, false, 2000⟩], 1⟩ 4
        (some ⟨"tk", 1100⟩)).blacklist = some ⟨"blacklist:token:tk", "1", 900⟩ := by
  have h := c3_logout_fixed_ttl (fun x => x) ⟨[⟨0, 4, 0, 0, false, 2000⟩], 1⟩ 4 ⟨"tk", 1100⟩
  exact ⟨h.1, h.2.1⟩

/-! ## Refresh-token transport (C4) -/

/-- The cookie set by the login and refresh endpoints. -/
structure Cookie where
  name : String
  value : String
  httponly : Bool
  secure : Bool
  samesite : String
  maxAge : Nat
deriving Repr, DecidableEq

/-- A login/refresh response: the JSON body's string fields plus the cookie. -/
structure TokenTransport where
  body : List (String × String)
  cookie : Cookie
deriving Repr, DecidableEq

/-- The login endpoint of the flat tree, embedded from
src/app/api/v1/endpoints/auth.py lines 119-137: access token in the body,
refresh token only in the HttpOnly cookie. -/
def login_response_api_v1 (access refreshTok : String) : TokenTransport :=
  { body := [("access_token", access), ("token_type", "bearer")],
    cookie := ⟨"refresh_token", refreshTok, true, true, "lax", 7 * 24 * 60 * 60⟩ }

/-- The login endpoint of the modules tree, embedded from
src/app/modules/auth/endpoints.py lines 123-143: the same cookie, but the
refresh token is also returned in the response body. -/
def login_response_modules (access refreshTok : String) : TokenTransport :=
  { body := [("access_token", access), ("refresh_token", refreshTok),
      ("token_type", "bearer")],
    cookie := ⟨"refresh_token", refreshTok, true, true, "lax", 7 * 24 * 60 * 60⟩ }

/-- The refresh endpoint's response, embedded from
src/app/api/v1/endpoints/auth.py lines 253-271 and the identical
src/app/modules/auth/endpoints.py lines 295-313. -/
def refresh_response (access refreshTok : String) : TokenTransport :=
  { body := [("access_token", access), ("token_type", "bearer")],
    cookie := ⟨"refresh_token", refreshTok, true, true, "lax", 7 * 24 * 60 * 60⟩ }

/-- Decimal digits of a natural, most significant first. -/
def natDecimal (n : Nat) : List Char :=
  if h : n < 10 then [Char.ofNat (48 + n)]
  else natDecimal (n / 10) ++ [Char.ofNat (48 + n % 10)]
decreasing_by
  exact Nat.div_lt_self (by omega) (by omega)

/-- Modelled from the spec: the raw refresh token handed to the client is an
opaque high-entropy string (spec 4.4 and 6); its generator is not under src/.
The model's raw tokens are naturals, rendered as their decimal digits. -/
def render_refresh_token (n : Nat) : String := String.mk (natDecimal n)

theorem isDigit_ofNat_digit (d : Nat) (h : d < 10) :
    (Char.ofNat (48 + d)).isDigit = true := by
  interval_cases d <;> decide

theorem natDecimal_all_digits (n : Nat) : ∀ c ∈ natDecimal n, c.isDigit = true := by
  induction n using Nat.strong_induction_on with
  | _ n ih =>
    intro c hc
    unfold natDecimal at hc
    by_cases h : n < 10
    · rw [dif_pos h] at hc
      simp only [List.mem_singleton] at hc
      rw [hc]
      exact isDigit_ofNat_digit n h
    · rw [dif_neg h] at hc
      simp only [List.mem_append, List.mem_singleton] at hc
      rcases hc with hc | hc
      · exact ih (n / 10) (Nat.div_lt_self (by omega) (by omega)) c hc
      · rw [hc]
        exact isDigit_ofNat_digit (n % 10) (Nat.mod_lt n (by omega))

/-- C4 counterexample: the modules-tree login returns the refresh token in
the response body, so the claim that it is transported exclusively via the
cookie and never in the body is false on the code. -/
theorem c4_counterexample :
    ("refresh_token", "rtok") ∈ (login_response_modules "atok" "rtok").body := by
  simp [login_response_modules]

/-- C4 amended: the refresh token is an opaque digit string (never a
dot-separated structured token such as a JWT); in both login variants and in
the refresh endpoint it is set in an HTTP-only, secure, samesite=lax cookie
with a 7-day max-age; the api/v1 login and the refresh endpoint omit it from
the response body, but the modules-tree login additionally returns it in the
body. -/
theorem c4_cookie_transport (access : String) (n : Nat) :
    (∀ c ∈ (render_refresh_token n).data, c.isDigit = true) ∧
    ('.' ∉ (render_refresh_token n).data) ∧
    (login_response_api_v1 access (render_refresh_token n)).cookie =
      ⟨"refresh_token", render_refresh_token n, true, true, "lax", 604800⟩ ∧
    (login_response_modules access (render_refresh_token n)).cookie =
      ⟨"refresh_token", render_refresh_token n, true, true, "lax", 604800⟩ ∧
    (refresh_response access (render_refresh_token n)).cookie =
      ⟨"refresh_token", render_refresh_token n, true, true, "lax", 604800⟩ ∧
    (∀ v, ("refresh_token", v) ∉ (login_response_api_v1 access (render_refresh_token n)).body) ∧
    (∀ v, ("refresh_token", v) ∉ (refresh_response access (render_refresh_token n)).body) ∧
    ("refresh_token", render_refresh_token n) ∈
      (login_response_modules access (render_refresh_token n)).body := by
  have hdig : ∀ c ∈ (render_refresh_token n).data, c.isDigit = true := by
    intro c hc
    exact natDecimal_all_digits n c hc
  refine ⟨hdig, ?_, rfl, rfl, rfl, ?_, ?_, by simp [login_response_modules]⟩
  · intro hdot
    have := hdig '.' hdot
    simp [Char.isDigit] at this
  · intro v hv
    simp [login_response_api_v1] at hv
  · intro v hv
    simp [refresh_response] at hv

/-- Witness for C4 amended at a concrete access token and token number. -/
theorem c4_cookie_transport_witness :
    (login_response_api_v1 "at" (render_refresh_token 12345)).cookie =
      ⟨"refresh_token", render_refresh_token 12345, true, true, "lax", 604800⟩ ∧
    ("refresh_token", render_refresh_token 12345) ∈
      (login_response_modules "at" (render_refresh_token 12345)).body := by
  have h := c4_cookie_transport "at" 12345
  exact ⟨h.2.2.1, h.2.2.2.2.2.2.2⟩

/-! ## OTP engine (C5, C6) -/

/-- `OTPType` from src/app/constants/enums.py. -/
inductive OTPType where
  | EMAIL_VERIFICATION
  | PASSWORD_RESET
deriving Repr, DecidableEq

/-- The `.value` string of the enum member. -/
def OTPType.val : OTPType → String
  | .EMAIL_VERIFICATION => "EMAIL_VERIFICATION"
  | .PASSWORD_RESET => "PASSWORD_RESET"

/-- `otp_key` from src/app/core/cache.py lines 127-129. -/
def otp_key (email : String) (otpType : String) : String :=
  "otp:" ++ email ++ ":" ++ otpType

theorem length_otp_key (email a : String) :
    (otp_key email a).length = 4 + email.length + 1 + a.length := by
  have h4 : ("otp:" : String).length = 4 := rfl
  have h1 : (":" : String).length = 1 := rfl
  simp only [otp_key, String.length_append, h4, h1]

theorem otp_key_ne_of_val_ne (email : String) {t1 t2 : OTPType} (h : t1 ≠ t2) :
    otp_key email t1.val ≠ otp_key email t2.val := by
  intro hk
  have hl := congrArg String.length hk
  rw [length_otp_key, length_otp_key] at hl
  cases t1 <;> cases t2 <;> simp_all [OTPType.val]
  · have h18 : ("EMAIL_VERIFICATION" : String).length = 18 := rfl
    have h14 : ("PASSWORD_RESET" : String).length = 14 := rfl
    omega
  · have h18 : ("EMAIL_VERIFICATION" : String).length = 18 := rfl
    have h14 : ("PASSWORD_RESET" : String).length = 14 := rfl
    omega

namespace Security

/-- Modelled from the spec: `hash_otp` of app/core/security.py (not under
src/), an idealised collision-free one-way hash of the 6-digit code. -/
def hash_otp (code : String) : String := code

/-- Modelled from the spec: `verify_otp(otp, hashed)` of app/core/security.py
(not under src/): recompute and compare. -/
def verify_otp (otp hashed : String) : Bool := hashed == hash_otp otp

end Security

/-- The cached OTP record: hashed code and attempt counter (spec 3, OTP
Record). -/
structure OTPRecord where
  codeHash : String
  attempts : Nat
deriving Repr, DecidableEq

/-- The OTP slice of the cache, keyed by `otp_key` strings. -/
def OTPStore := String → Option OTPRecord

/-- OTP verification failures (src/app/constants/error_codes.py lines 22-27:
OTP_EXPIRED for the missing record, OTP_MAX_ATTEMPTS, OTP_INVALID). -/
inductive OTPVerifyErr where
  | notFound
  | maxAttempts
  | invalid
deriving Repr, DecidableEq

namespace OTPService

/-- Modelled from the spec: `OTPService.verify_otp` (not under src/),
spec 4.2: no record fails NotFound; a 4th failed attempt fails
MaxAttemptsExceeded and deletes the record; a hash mismatch increments the
attempt counter and fails Invalid; a match deletes the record and succeeds.
Keys are the `otp_key` strings embedded from src/app/core/cache.py. -/
def verify_otp (st : OTPStore) (email : String) (typ : OTPType) (code : String) :
    Except OTPVerifyErr Unit × OTPStore :=
  match st (otp_key email typ.val) with
  | none => (.error .notFound, st)
  | some r =>
    if 3 ≤ r.attempts then
      (.error .maxAttempts, fun q => if q = otp_key email typ.val then none else st q)
    else if Security.hash_otp code ≠ r.codeHash then
      (.error .invalid,
       fun q => if q = otp_key email typ.val then some ⟨r.codeHash, r.attempts + 1⟩ else st q)
    else
      (.ok (), fun q => if q = otp_key email typ.val then none else st q)

end OTPService

/-- C5: OTP verify fails NotFound on a missing record; on a hash mismatch it
increments the attempt counter and fails Invalid; the 4th failed attempt
fails MaxAttemptsExceeded and deletes the record so any later call, even
with the correct code, fails; a match deletes the record and succeeds so an
immediate repeat fails NotFound; and the EMAIL_VERIFICATION and
PASSWORD_RESET records of one email are independent. -/
theorem c5_verify_otp_behaviour :
    (∀ (st : OTPStore) (e : String) (t : OTPType) (c : String),
      st (otp_key e t.val) = none →
        (OTPService.verify_otp st e t c).1 = .error .notFound ∧
        (OTPService.verify_otp st e t c).2 = st) ∧
    (∀ (st : OTPStore) (e : String) (t : OTPType) (c : String) (r : OTPRecord),
      st (otp_key e t.val) = some r → 3 ≤ r.attempts →
        (OTPService.verify_otp st e t c).1 = .error .maxAttempts ∧
        (OTPService.verify_otp st e t c).2 (otp_key e t.val) = none ∧
        ∀ c2 : String, (OTPService.verify_otp (OTPService.verify_otp st e t c).2 e t c2).1 =
          .error .notFound) ∧
    (∀ (st : OTPStore) (e : String) (t : OTPType) (c : String) (r : OTPRecord),
      st (otp_key e t.val) = some r → r.attempts < 3 →
      Security.hash_otp c ≠ r.codeHash →
        (OTPService.verify_otp st e t c).1 = .error .invalid ∧
        (OTPService.verify_otp st e t c).2 (otp_key e t.val) =
          some ⟨r.codeHash, r.attempts + 1⟩) ∧
    (∀ (st : OTPStore) (e : String) (t : OTPType) (c : String) (r : OTPRecord),
      st (otp_key e t.val) = some r → r.attempts < 3 →
      Security.hash_otp c = r.codeHash →
        (OTPService.verify_otp st e t c).1 = .ok () ∧
        (OTPService.verify_otp (OTPService.verify_otp st e t c).2 e t c).1 =
          .error .notFound) ∧
    (∀ (st : OTPStore) (e : String) (t1 t2 : OTPType) (c : String), t1 ≠ t2 →
      (OTPService.verify_otp st e t1 c).2 (otp_key e t2.val) = st (otp_key e t2.val)) := by
  refine ⟨?_, ?_, ?_, ?_, ?_⟩
  · intro st e t c h
    unfold OTPService.verify_otp
    rw [h]
    exact ⟨rfl, rfl⟩
  · intro st e t c r h hatt
    unfold OTPService.verify_otp
    rw [h]
    dsimp only
    rw [if_pos hatt]
    refine ⟨rfl, by simp, ?_⟩
    intro c2
    simp
  · intro st e t c r h hatt hne
    unfold OTPService.verify_otp
    rw [h]
    dsimp only
    rw [if_neg (by omega), if_pos hne]
    exact ⟨rfl, by simp⟩
  · intro st e t c r h hatt heq
    unfold OTPService.verify_otp
    rw [h]
    dsimp only
    rw [if_neg (by omega), if_neg (by simp [heq])]
    refine ⟨rfl, ?_⟩
    simp
  · intro st e t1 t2 c hne
    have hkey := otp_key_ne_of_val_ne e (fun h => hne h)
    unfold OTPService.verify_otp
    cases hst : st (otp_key e t1.val) with
    | none => rfl
    | some r =>
      dsimp only
      by_cases hatt : 3 ≤ r.attempts
      · rw [if_pos hatt]
        simpa using fun h => (hkey (h.symm)).elim
      · rw [if_neg hatt]
        by_cases hmm : Security.hash_otp c ≠ r.codeHash
        · rw [if_pos hmm]
          simpa using fun h => (hkey (h.symm)).elim
        · rw [if_neg hmm]
          simpa using fun h => (hkey (h.symm)).elim

/-- Witness for C5 on a concrete one-record store: a wrong code increments
the counter, the exhausted record fails MaxAttemptsExceeded, and the other
purpose's slot is untouched. -/
theorem c5_verify_otp_behaviour_witness :
    (OTPService.verify_otp
      (fun q => if q = otp_key "a@b.c" OTPType.EMAIL_VERIFICATION.val
        then some ⟨"123456", 0⟩ else none)
      "a@b.c" OTPType.EMAIL_VERIFICATION "000000").1 = .error .invalid ∧
    (OTPService.verify_otp
      (fun q => if q = otp_key "a@b.c" OTPType.EMAIL_VERIFICATION.val
        then some ⟨"123456", 3⟩ else none)
      "a@b.c" OTPType.EMAIL_VERIFICATION "123456").1 = .error .maxAttempts ∧
    (OTPService.verify_otp
      (fun q => if q = otp_key "a@b.c" OTPType.EMAIL_VERIFICATION.val
        then some ⟨"123456", 0⟩ else none)
      "a@b.c" OTPType.EMAIL_VERIFICATION "123456").2
      (otp_key "a@b.c" OTPType.PASSWORD_RESET.val) = none := by
  refine ⟨?_, ?_, ?_⟩
  · exact (c5_verify_otp_behaviour.2.2.1
      (fun q => if q = otp_key "a@b.c" OTPType.EMAIL_VERIFICATION.val
        then some ⟨"123456", 0⟩ else none)
      "a@b.c" OTPType.EMAIL_VERIFICATION "000000" ⟨"123456", 0⟩
      (by simp) (by decide) (by decide)).1
  · exact (c5_verify_otp_behaviour.2.1
      (fun q => if q = otp_key "a@b.c" OTPType.EMAIL_VERIFICATION.val
        then some ⟨"123456", 3⟩ else none)
      "a@b.c" OTPType.EMAIL_VERIFICATION "123456" ⟨"123456", 3⟩
      (by simp) (by decide)).1
  · have h := c5_verify_otp_behaviour.2.2.2.2
      (fun q => if q = otp_key "a@b.c" OTPType.EMAIL_VERIFICATION.val
        then some ⟨"123456", 0⟩ else none)
      "a@b.c" OTPType.EMAIL_VERIFICATION OTPType.PASSWORD_RESET "123456" (by decide)
    rw [h]
    have hne : otp_key "a@b.c" OTPType.PASSWORD_RESET.val ≠
        otp_key "a@b.c" OTPType.EMAIL_VERIFICATION.val :=
      otp_key_ne_of_val_ne "a@b.c" (by decide)
    simp [hne]

/-- Per-(identifier, purpose) resend-tracking state: time of the last
successful generate, send times, and an active lock, if any. -/
structure OTPGenState where
  lastSent : Option Nat
  sentTimes : List Nat
  lockedUntil : Option Nat
deriving Repr, DecidableEq

def OTPGenState.empty : OTPGenState := ⟨none, [], none⟩

/-- OTP generation failures (error_codes.py: OTP_COOLDOWN, OTP_LOCKED). -/
inductive OTPGenErr where
  | rateLimited
  | locked
deriving Repr, DecidableEq

def digitChar (d : Nat) : Char := Char.ofNat (48 + d % 10)

/-- Modelled from the spec: `generate_otp` of app/core/security.py (not under
src/) draws a fresh 6-digit numeric code; the RNG draw is the seed. -/
def gen_code (seed : Nat) : String :=
  String.mk [digitChar (seed / 100000), digitChar (seed / 10000), digitChar (seed / 1000),
    digitChar (seed / 100), digitChar (seed / 10), digitChar seed]

def OTP_COOLDOWN_SECONDS : Nat := 60
def OTP_HOUR_WINDOW : Nat := 3600
def OTP_HOUR_LIMIT : Nat := 5
def OTP_LOCK_SECONDS : Nat := 24 * 60 * 60

/-- Whether a 24-hour lock is active. -/
def lockActive (g : OTPGenState) (now : Nat) : Bool :=
  match g.lockedUntil with
  | some lu => decide (now < lu)
  | none => false

/-- Whether the last successful generate was less than 60 seconds ago. -/
def inCooldown (g : OTPGenState) (now : Nat) : Bool :=
  match g.lastSent with
  | some ls => decide (now < ls + OTP_COOLDOWN_SECONDS)
  | none => false

/-- The sends of the trailing hour. -/
def recentSends (g : OTPGenState) (now : Nat) : List Nat :=
  g.sentTimes.filter (fun t => decide (now < t + OTP_HOUR_WINDOW))

namespace OTPService

/-- Modelled from the spec: `OTPService.generate_otp` (not under src/),
spec 4.2: fails RateLimited under the 60-second cooldown, Locked when a lock
is active or when 5 sends fall in the trailing hour (the lock then lasting
24 hours; an active lock is checked first, then the cooldown, then the
hourly limit); otherwise stores the hash of a fresh 6-digit code with the
attempt counter reset to 0 and returns the code. -/
def generate_otp (g : OTPGenState) (rec : Option OTPRecord) (now seed : Nat) :
    Except OTPGenErr String × OTPGenState × Option OTPRecord :=
  if lockActive g now then
    (.error .locked, g, rec)
  else if inCooldown g now then
    (.error .rateLimited, g, rec)
  else if OTP_HOUR_LIMIT ≤ (recentSends g now).length then
    (.error .locked, { g with lockedUntil := some (now + OTP_LOCK_SECONDS) }, rec)
  else
    (.ok (gen_code seed),
     ⟨some now, now :: recentSends g now, none⟩,
     some ⟨Security.hash_otp (gen_code seed), 0⟩)

end OTPService

theorem isDigit_digitChar (d : Nat) : (digitChar d).isDigit = true := by
  unfold digitChar
  have h : d % 10 < 10 := Nat.mod_lt d (by omega)
  interval_cases h2 : d % 10 <;> decide

theorem gen_code_six_digits (seed : Nat) :
    (gen_code seed).length = 6 ∧ ∀ c ∈ (gen_code seed).data, c.isDigit = true := by
  constructor
  · rfl
  · intro c hc
    simp only [gen_code, String.data] at hc
    simp only [List.mem_cons, List.not_mem_nil, or_false] at hc
    rcases hc with h | h | h | h | h | h <;> rw [h] <;> exact isDigit_digitChar _

/-- C6 counterexample: with no active lock, five sends inside the trailing
hour and the fifth only 50 seconds old, generate fails RateLimited although
5 generates occurred within the trailing hour, so the claim's "fails with
Locked whenever 5 generates occurred within the trailing hour" is false:
the 60-second cooldown takes precedence. -/
theorem c6_counterexample :
    (OTPService.generate_otp ⟨some 950, [950, 900, 800, 700, 600], none⟩ none 1000 0).1 =
      .error .rateLimited ∧
    5 ≤ (recentSends ⟨some 950, [950, 900, 800, 700, 600], none⟩ 1000).length ∧
    (Except.error OTPGenErr.rateLimited : Except OTPGenErr String) ≠ .error .locked := by
  refine ⟨rfl, by decide, by simp⟩

/-- C6 amended: generate fails Locked while a 24-hour lock is active; with no
active lock it fails RateLimited whenever the previous successful generate
was less than 60 seconds earlier; with no active lock and the cooldown
elapsed it fails Locked and installs a 24-hour lock whenever 5 generates
occurred within the trailing hour; and otherwise it succeeds, storing the
hash of a fresh 6-digit code with the attempt counter reset to 0. -/
theorem c6_generate_otp_behaviour :
    (∀ (g : OTPGenState) (rec : Option OTPRecord) (now seed : Nat),
      lockActive g now = true →
        (OTPService.generate_otp g rec now seed).1 = .error .locked) ∧
    (∀ (g : OTPGenState) (rec : Option OTPRecord) (now seed ls : Nat),
      lockActive g now = false → g.lastSent = some ls → now < ls + 60 →
        (OTPService.generate_otp g rec now seed).1 = .error .rateLimited) ∧
    (∀ (g : OTPGenState) (rec : Option OTPRecord) (now seed : Nat),
      lockActive g now = false → inCooldown g now = false →
      5 ≤ (recentSends g now).length →
        (OTPService.generate_otp g rec now seed).1 = .error .locked ∧
        (OTPService.generate_otp g rec now seed).2.1.lockedUntil =
          some (now + 24 * 60 * 60)) ∧
    (∀ (g : OTPGenState) (rec : Option OTPRecord) (now seed : Nat),
      lockActive g now = false → inCooldown g now = false →
      (recentSends g now).length < 5 →
        (OTPService.generate_otp g rec now seed).1 = .ok (gen_code seed) ∧
        (OTPService.generate_otp g rec now seed).2.2 =
          some ⟨Security.hash_otp (gen_code seed), 0⟩ ∧
        (OTPService.generate_otp g rec now seed).2.1.lastSent = some now ∧
        (gen_code seed).length = 6 ∧
        (∀ c ∈ (gen_code seed).data, c.isDigit = true)) := by
  refine ⟨?_, ?_, ?_, ?_⟩
  · intro g rec now seed hlock
    unfold OTPService.generate_otp
    rw [if_pos hlock]
  · intro g rec now seed ls hlock hls hcd
    unfold OTPService.generate_otp
    rw [if_neg (by rw [hlock]; simp), if_pos (by
      unfold inCooldown
      rw [hls]
      simpa [OTP_COOLDOWN_SECONDS] using hcd)]
  · intro g rec now seed hlock hcd hcount
    unfold OTPService.generate_otp
    rw [if_neg (by rw [hlock]; simp), if_neg (by rw [hcd]; simp),
      if_pos (by simpa [OTP_HOUR_LIMIT] using hcount)]
    exact ⟨rfl, rfl⟩
  · intro g rec now seed hlock hcd hcount
    unfold OTPService.generate_otp
    rw [if_neg (by rw [hlock]; simp), if_neg (by rw [hcd]; simp),
      if_neg (by simpa [OTP_HOUR_LIMIT] using Nat.not_le.mpr hcount)]
    exact ⟨rfl, rfl, rfl, (gen_code_six_digits seed).1, (gen_code_six_digits seed).2⟩

/-- Witness for C6 amended at concrete states: cooldown at 50 seconds, the
hourly lockout with an elapsed cooldown, and a success from the empty state. -/
theorem c6_generate_otp_behaviour_witness :
    (OTPService.generate_otp ⟨some 950, [950], none⟩ none 1000 0).1 =
      .error .rateLimited ∧
    (OTPService.generate_otp ⟨some 900, [900, 850, 800, 700, 600], none⟩ none 1000 7).1 =
      .error .locked ∧
    (OTPService.generate_otp OTPGenState.empty none 1000 123456).1 =
      .ok (gen_code 123456) := by
  refine ⟨?_, ?_, ?_⟩
  · exact c6_generate_otp_behaviour.2.1 ⟨some 950, [950], none⟩ none 1000 0 950
      (by decide) rfl (by decide)
  · exact (c6_generate_otp_behaviour.2.2.1 ⟨some 900, [900, 850, 800, 700, 600], none⟩
      none 1000 7 (by decide) (by decide) (by decide)).1
  · exact (c6_generate_otp_behaviour.2.2.2 OTPGenState.empty none 1000 123456
      (by decide) (by decide) (by decide)).1

/-! ## Password hashing (C8) and authentication (C7) -/

namespace Security

/-- A salted password hash: the salt and the keyed digest (spec 4.1: salt
embedded in the hash output). -/
structure PwHash where
  salt : Nat
  digest : Nat × String
deriving Repr, DecidableEq

/-- Modelled from the spec: `hash_password` of app/core/security.py (not
under src/), a slow salted one-way bcrypt-class hash (spec 4.1), idealised
as a collision-free keyed digest. -/
def hash_password (salt : Nat) (p : String) : PwHash := ⟨salt, (salt, p)⟩

/-- Modelled from the spec: `verify_password` recomputes the digest with the
salt embedded in the stored hash and compares. -/
def verify_password (p : String) (h : PwHash) : Bool := h.digest == (h.salt, p)

end Security

/-- C8: verify(hash(p), p) is true for every password p and false for every
other password; the same round-trip holds for the OTP hashing pair on
6-digit codes. -/
theorem c8_hash_verify_roundtrip :
    (∀ (salt : Nat) (p : String),
      Security.verify_password p (Security.hash_password salt p) = true) ∧
    (∀ (salt : Nat) (p p2 : String), p2 ≠ p →
      Security.verify_password p2 (Security.hash_password salt p) = false) ∧
    (∀ c : String, c.length = 6 →
      Security.verify_otp c (Security.hash_otp c) = true) ∧
    (∀ c c2 : String, c.length = 6 → c2.length = 6 → c2 ≠ c →
      Security.verify_otp c2 (Security.hash_otp c) = false) := by
  refine ⟨?_, ?_, ?_, ?_⟩
  · intro salt p
    simp [Security.verify_password, Security.hash_password]
  · intro salt p p2 hne
    simp [Security.verify_password, Security.hash_password]
    exact fun h => absurd h.symm hne
  · intro c _
    simp [Security.verify_otp, Security.hash_otp]
  · intro c c2 _ _ hne
    simp [Security.verify_otp, Security.hash_otp]
    exact fun h => absurd h.symm hne

/-- Witness for C8 at concrete passwords and codes. -/
theorem c8_hash_verify_roundtrip_witness :
    Security.verify_password "pw12345" (Security.hash_password 3 "pw12345") = true ∧
    Security.verify_password "pw12346" (Security.hash_password 3 "pw12345") = false ∧
    Security.verify_otp "123456" (Security.hash_otp "123456") = true ∧
    Security.verify_otp "000000" (Security.hash_otp "123456") = false := by
  refine ⟨c8_hash_verify_roundtrip.1 3 "pw12345",
    c8_hash_verify_roundtrip.2.1 3 "pw12345" "pw12346" (by decide),
    c8_hash_verify_roundtrip.2.2.1 "123456" (by decide),
    c8_hash_verify_roundtrip.2.2.2 "123456" "000000" (by decide) (by decide) (by decide)⟩

/-- `UserRole` from src/app/constants/enums.py. -/
inductive UserRole where
  | ADMIN
  | CUSTOMER
deriving Repr, DecidableEq

/-- The user fields the authentication path reads (User model, spec 3). -/
structure User where
  email : String
  hashedPassword : Security.PwHash
  isActive : Bool
  isVerified : Bool
  role : UserRole
deriving Repr, DecidableEq

/-- An AuthenticationError as surfaced to the client: error code plus
message. -/
structure AuthError where
  errorCode : String
  message : String
deriving Repr, DecidableEq

/-- The single generic credentials failure: code
`ErrorCode.INVALID_CREDENTIALS = "AUTH_001"`
(src/app/constants/error_codes.py line 10) with one fixed generic message. -/
def invalidCredentialsError : AuthError :=
  ⟨"AUTH_001", "Invalid email or password"⟩

/-- Modelled from the spec: `AuthService.authenticate_user` (not under src/),
spec 4.5: the one generic AuthenticationError value — same code, same
message — for user-not-found, password mismatch and inactive account; the
verified flag is not consulted here. -/
def authenticate_user (db : List User) (email pw : String) : Except AuthError User :=
  match db.find? (fun u => u.email == email) with
  | none => .error invalidCredentialsError
  | some u =>
    if Security.verify_password pw u.hashedPassword = false then
      .error invalidCredentialsError
    else if u.isActive = false then
      .error invalidCredentialsError
    else
      .ok u

/-- Failures of the login endpoint. -/
inductive LoginErr where
  | auth (e : AuthError)
  | emailNotVerified
deriving Repr, DecidableEq

/-- The login endpoint's post-authentication check, embedded from
src/app/api/v1/endpoints/auth.py lines 104-116 (identical in
src/app/modules/auth/endpoints.py lines 109-121): only after
authenticate_user has returned is a CUSTOMER without a verified email
rejected, with the distinct EMAIL_NOT_VERIFIED failure. -/
def login_check (db : List User) (email pw : String) : Except LoginErr User :=
  match authenticate_user db email pw with
  | .error e => .error (.auth e)
  | .ok u =>
    if u.role = UserRole.CUSTOMER ∧ u.isVerified = false then
      .error .emailNotVerified
    else
      .ok u

/-- C7: authenticate fails with the identical generic AuthenticationError —
same error value, hence same type and message — when no user matches the
email, when the password does not verify, and when the account is inactive;
it succeeds for an active user with a verified password regardless of the
verified flag, whose CUSTOMER email-verified requirement is enforced by the
login caller afterwards. -/
theorem c7_generic_authentication_error :
    (∀ (db : List User) (email pw : String),
      db.find? (fun u => u.email == email) = none →
        authenticate_user db email pw = .error invalidCredentialsError) ∧
    (∀ (db : List User) (email pw : String) (u : User),
      db.find? (fun u => u.email == email) = some u →
      Security.verify_password pw u.hashedPassword = false →
        authenticate_user db email pw = .error invalidCredentialsError) ∧
    (∀ (db : List User) (email pw : String) (u : User),
      db.find? (fun u => u.email == email) = some u →
      Security.verify_password pw u.hashedPassword = true → u.isActive = false →
        authenticate_user db email pw = .error invalidCredentialsError) ∧
    (∀ (db : List User) (email pw : String) (u : User),
      db.find? (fun u => u.email == email) = some u →
      Security.verify_password pw u.hashedPassword = true → u.isActive = true →
        authenticate_user db email pw = .ok u) ∧
    (∀ (db : List User) (email pw : String) (u : User),
      authenticate_user db email pw = .ok u →
      u.role = UserRole.CUSTOMER → u.isVerified = false →
        login_check db email pw = .error .emailNotVerified) := by
  refine ⟨?_, ?_, ?_, ?_, ?_⟩
  · intro db email pw h
    unfold authenticate_user
    rw [h]
  · intro db email pw u h hbad
    unfold authenticate_user
    rw [h]
    dsimp only
    rw [if_pos hbad]
  · intro db email pw u h hok hinact
    unfold authenticate_user
    rw [h]
    dsimp only
    rw [if_neg (by rw [hok]; simp), if_pos hinact]
  · intro db email pw u h hok hact
    unfold authenticate_user
    rw [h]
    dsimp only
    rw [if_neg (by rw [hok]; simp), if_neg (by rw [hact]; simp)]
  · intro db email pw u hauth hrole hver
    unfold login_check
    rw [hauth]
    dsimp only
    rw [if_pos ⟨hrole, hver⟩]

/-- Witness for C7 on a concrete single-user database: unknown email, wrong
password, inactive account, and the caller-level verified check. -/
theorem c7_generic_authentication_error_witness :
    authenticate_user [⟨"x@y.z", Security.hash_password 1 "pw", true, false,
        UserRole.CUSTOMER⟩] "no@y.z" "pw" = .error invalidCredentialsError ∧
    authenticate_user [⟨"x@y.z", Security.hash_password 1 "pw", true, false,
        UserRole.CUSTOMER⟩] "x@y.z" "bad" = .error invalidCredentialsError ∧
    authenticate_user [⟨"x@y.z", Security.hash_password 1 "pw", false, true,
        UserRole.CUSTOMER⟩] "x@y.z" "pw" = .error invalidCredentialsError ∧
    login_check [⟨"x@y.z", Security.hash_password 1 "pw", true, false,
        UserRole.CUSTOMER⟩] "x@y.z" "pw" = .error .emailNotVerified := by
  refine ⟨?_, ?_, ?_, ?_⟩
  · exact c7_generic_authentication_error.1 _ "no@y.z" "pw" (by decide)
  · exact c7_generic_authentication_error.2.1 _ "x@y.z" "bad"
      ⟨"x@y.z", Security.hash_password 1 "pw", true, false, UserRole.CUSTOMER⟩
      (by decide) (by decide)
  · exact c7_generic_authentication_error.2.2.1 _ "x@y.z" "pw"
      ⟨"x@y.z", Security.hash_password 1 "pw", false, true, UserRole.CUSTOMER⟩
      (by decide) (by decide) rfl
  · exact c7_generic_authentication_error.2.2.2.2 _ "x@y.z" "pw"
      ⟨"x@y.z", Security.hash_password 1 "pw", true, false, UserRole.CUSTOMER⟩
      (by rfl) rfl rfl

/-! ## Exception dispatch (C9) -/

/-- `ErrorCode` from src/app/schemas/response.py. -/
inductive RespErrorCode where
  | VALIDATION_ERROR
  | AUTHENTICATION_ERROR
  | AUTHORIZATION_ERROR
  | NOT_FOUND_ERROR
  | INTERNAL_SERVER_ERROR
  | BAD_REQUEST_ERROR
deriving Repr, DecidableEq

/-- An exception arriving at the application's handlers: a typed HTTP
exception with its status, a request-validation failure, or any other
(unexpected) exception such as a store/cache failure. -/
inductive AppException where
  | http (status : Nat) (detail : String)
  | validation (msg : String)
  | unexpected (msg : String)
deriving Repr, DecidableEq

/-- The error response produced by a handler. -/
structure ErrResponse where
  status : Nat
  code : RespErrorCode
  message : String
deriving Repr, DecidableEq

/-- The exception dispatch embedded from src/app/core/exceptions.py
`add_exception_handlers` (lines 7-60): HTTP exceptions map their status to a
code (401 to AUTHENTICATION_ERROR, 403, 404, 500, else BAD_REQUEST_ERROR),
validation failures give 422, and `global_exception_handler` (lines 47-60)
turns any other exception into a 500 with INTERNAL_SERVER_ERROR. -/
def handle_exception : AppException → ErrResponse
  | .http st d =>
    ⟨st,
      if st = 401 then .AUTHENTICATION_ERROR
      else if st = 403 then .AUTHORIZATION_ERROR
      else if st = 404 then .NOT_FOUND_ERROR
      else if st = 500 then .INTERNAL_SERVER_ERROR
      else .BAD_REQUEST_ERROR,
      d⟩
  | .validation _ => ⟨422, .VALIDATION_ERROR, "Validation Error"⟩
  | .unexpected _ => ⟨500, .INTERNAL_SERVER_ERROR, "Internal Server Error"⟩

/-- Modelled from the spec: the core operations (service layer, not under
src/) recover only their typed failures and let an unexpected store/cache
exception propagate unchanged (spec 7). -/
def run_core_op {A : Type} (op : Except String A) : Except AppException A :=
  match op with
  | .error m => .error (.unexpected m)
  | .ok a => .ok a

/-- C9: an unexpected store/cache exception inside a core operation is never
converted into the 401 AuthenticationError: it propagates as an unexpected
exception, and the global handler turns it into a 500 response with
INTERNAL_SERVER_ERROR, distinct in status and code from the authentication
response. -/
theorem c9_unexpected_not_masked :
    (∀ m : String, run_core_op (A := Unit) (.error m) = .error (.unexpected m)) ∧
    (∀ m : String,
      handle_exception (.unexpected m) = ⟨500, .INTERNAL_SERVER_ERROR, "Internal Server Error"⟩ ∧
      (handle_exception (.unexpected m)).status ≠ 401 ∧
      (handle_exception (.unexpected m)).code ≠ .AUTHENTICATION_ERROR) := by
  refine ⟨fun m => rfl, fun m => ⟨rfl, by simp [handle_exception], by simp [handle_exception]⟩⟩

/-! ## Cache semantics (C10)

A shallow model of the Python `json` codec on the fragment the cache uses:
integers, escape-free strings, arrays and string-keyed objects, with
`json.dumps`'s default ", " and ": " separators. -/

/-- A JSON value of the modelled fragment. -/
inductive Json where
  | num (n : Int)
  | str (s : String)
  | arr (xs : List Json)
  | obj (fs : List (String × Json))
deriving Repr

def lbrace : Char := Char.ofNat 123

def rbrace : Char := Char.ofNat 125

def skipWs : List Char → List Char
  | [] => []
  | c :: cs => if c = ' ' || c = '\t' || c = '\n' || c = '\r' then skipWs cs else c :: cs

def takeDigits : List Char → List Char × List Char
  | [] => ([], [])
  | c :: cs =>
    if c.isDigit then
      ((takeDigits cs).1.cons c, (takeDigits cs).2)
    else ([], c :: cs)

def digitsToNat (ds : List Char) : Nat :=
  ds.foldl (fun a c => a * 10 + (c.toNat - 48)) 0

def takeStr : List Char → Option (List Char × List Char)
  | [] => none
  | c :: cs =>
    if c = '"' then some ([], cs)
    else if c = '\\' then none
    else (takeStr cs).map (fun p => (c :: p.1, p.2))

mutual

def parseVal : Nat → List Char → Option (Json × List Char)
  | 0, _ => none
  | fuel + 1, cs =>
    match skipWs cs with
    | [] => none
    | c :: rest =>
      if c = '"' then
        (takeStr rest).map (fun p => (Json.str (String.mk p.1), p.2))
      else if c = '[' then
        match skipWs rest with
        | ']' :: rest2 => some (Json.arr [], rest2)
        | rest2 => (parseItems fuel rest2).map (fun p => (Json.arr p.1, p.2))
      else if c = lbrace then
        match skipWs rest with
        | [] => none
        | d :: rest2 =>
          if d = rbrace then some (Json.obj [], rest2)
          else (parseFields fuel (d :: rest2)).map (fun p => (Json.obj p.1, p.2))
      else if c = '-' then
        match takeDigits rest with
        | ([], _) => none
        | (ds, rest2) => some (Json.num (-(digitsToNat ds : Int)), rest2)
      else if c.isDigit then
        some (Json.num (digitsToNat (takeDigits (c :: rest)).1), (takeDigits (c :: rest)).2)
      else none

def parseItems : Nat → List Char → Option (List Json × List Char)
  | 0, _ => none
  | fuel + 1, cs =>
    match parseVal fuel cs with
    | none => none
    | some (j, rest) =>
      match skipWs rest with
      | [] => none
      | c :: rest2 =>
        if c = ',' then
          (parseItems fuel rest2).map (fun p => (j :: p.1, p.2))
        else if c = ']' then some ([j], rest2)
        else none

def parseFields : Nat → List Char → Option (List (String × Json) × List Char)
  | 0, _ => none
  | fuel + 1, cs =>
    match skipWs cs with
    | [] => none
    | c :: rest =>
      if c = '"' then
        match takeStr rest with
        | none => none
        | some (key, rest2) =>
          match skipWs rest2 with
          | [] => none
          | d :: rest3 =>
            if d = ':' then
              match parseVal fuel rest3 with
              | none => none
              | some (j, rest4) =>
                match skipWs rest4 with
                | [] => none
                | e :: rest5 =>
                  if e = ',' then
                    (parseFields fuel rest5).map (fun p => ((String.mk key, j) :: p.1, p.2))
                  else if e = rbrace then some ([(String.mk key, j)], rest5)
                  else none
            else none
      else none

end

mutual

def jsonDumps : Json → String
  | .num n => toString n
  | .str s => String.mk ('"' :: s.data ++ ['"'])
  | .arr xs => String.mk ('[' :: (dumpItems xs).data ++ [']'])
  | .obj fs => String.mk (lbrace :: (dumpFields fs).data ++ [rbrace])

def dumpItems : List Json → String
  | [] => ""
  | [x] => jsonDumps x
  | x :: y :: xs => jsonDumps x ++ ", " ++ dumpItems (y :: xs)

def dumpFields : List (String × Json) → String
  | [] => ""
  | [(k, v)] => String.mk ('"' :: k.data ++ ['"']) ++ ": " ++ jsonDumps v
  | (k, v) :: f :: fs =>
    String.mk ('"' :: k.data ++ ['"']) ++ ": " ++ jsonDumps v ++ ", " ++ dumpFields (f :: fs)

end

/-- `json.loads`: parse and require full consumption. -/
def jsonLoads (s : String) : Option Json :=
  match parseVal (2 * s.data.length + 2) s.data with
  | some (j, rest) => if skipWs rest = [] then some j else none
  | none => none

/-- The redis keyspace: decode_responses=True, so stored values are strings. -/
def RedisStore := String → Option String

/-- The value kinds passed to set_cache by the code base. -/
inductive CacheWriteVal where
  | str (s : String)
  | int (n : Int)
  | dict (fs : List (String × Json))
  | list (xs : List Json)

/-- The serialisation of `set_cache` (src/app/core/cache.py lines 37-58):
dict and list values go through json.dumps; str is stored as is; an int is
stored as its decimal string by the redis client. -/
def set_cache_encode : CacheWriteVal → String
  | .str s => s
  | .int n => toString n
  | .dict fs => jsonDumps (.obj fs)
  | .list xs => jsonDumps (.arr xs)

/-- `set_cache` writes the encoded value under the key. -/
def set_cache (store : RedisStore) (k : String) (v : CacheWriteVal) : RedisStore :=
  fun q => if q = k then some (set_cache_encode v) else store q

/-- What a get_cache caller can observe: a decoded JSON value or the raw
stored string. -/
inductive CacheResult where
  | json (j : Json)
  | raw (s : String)
deriving Repr

/-- `get_cache` from src/app/core/cache.py lines 18-34: a missing key or a
falsy stored value (the empty string) give None; otherwise the value is
returned json-decoded when it parses, and as the raw string when it does
not. -/
def get_cache (store : RedisStore) (k : String) : Option CacheResult :=
  match store k with
  | none => none
  | some v =>
    if v = "" then none
    else
      match jsonLoads v with
      | some j => some (.json j)
      | none => some (.raw v)

/-- C10: get_cache returns None both for an absent key and for a stored
empty string, so the two cases cannot be distinguished; when the stored
string parses as JSON the decoded value is returned rather than the raw
string — the blacklist value "1" comes back as the integer 1, and dict/list
values written by set_cache round-trip through JSON. -/
theorem c10_get_cache_semantics :
    (∀ (store : RedisStore) (k : String), store k = none → get_cache store k = none) ∧
    (∀ (store : RedisStore) (k : String), store k = some "" → get_cache store k = none) ∧
    (∀ (store : RedisStore) (k : String) (v : String) (j : Json),
      store k = some v → jsonLoads v = some j → get_cache store k = some (.json j)) ∧
    (∀ (store : RedisStore) (k : String),
      get_cache (set_cache store k (.str "1")) k = some (.json (.num 1))) ∧
    (∀ (store : RedisStore) (k : String),
      get_cache (set_cache store k (.dict [("a", .num 1)])) k =
        some (.json (.obj [("a", .num 1)]))) ∧
    (∀ (store : RedisStore) (k : String),
      get_cache (set_cache store k (.list [.num 1, .num 2])) k =
        some (.json (.arr [.num 1, .num 2]))) := by
  refine ⟨?_, ?_, ?_, ?_, ?_, ?_⟩
  · intro store k h
    unfold get_cache
    rw [h]
  · intro store k h
    unfold get_cache
    rw [h]
    simp
  · intro store k v j hst hj
    have hv : v ≠ "" := by
      intro hv
      rw [hv] at hj
      have : jsonLoads "" = none := rfl
      rw [this] at hj
      exact Option.noConfusion hj
    unfold get_cache
    rw [hst]
    dsimp only
    rw [if_neg hv, hj]
  · intro store k
    unfold get_cache set_cache
    rw [if_pos rfl]
    rfl
  · intro store k
    unfold get_cache set_cache
    rw [if_pos rfl]
    rfl
  · intro store k
    unfold get_cache set_cache
    rw [if_pos rfl]
    rfl

/-- Witness for C10 on a concrete store holding "1" under "blacklist" and
nothing under "missing". -/
theorem c10_get_cache_semantics_witness :
    get_cache (fun q => if q = "blacklist" then some "1" else none) "missing" = none ∧
    get_cache (fun q => if q = "empty" then some "" else none) "empty" = none ∧
    get_cache (fun q => if q = "blacklist" then some "1" else none) "blacklist" =
      some (.json (.num 1)) := by
  refine ⟨?_, ?_, ?_⟩
  · exact c10_get_cache_semantics.1 (fun q => if q = "blacklist" then some "1" else none)
      "missing" (by rfl)
  · exact c10_get_cache_semantics.2.1 (fun q => if q = "empty" then some "" else none)
      "empty" (by rfl)
  · exact c10_get_cache_semantics.2.2.1 (fun q => if q = "blacklist" then some "1" else none)
      "blacklist" "1" (.num 1) (by rfl) (by rfl)

end FastapiAuth
